import Mathlib

/-!
Shallow embedding of the `memcached` Go package: a text-protocol memcached
client consisting of a TCP transport (`TransportSocket`) wrapping a buffered
line reader, key validation, and the `Set` / `Get` / `Delete` operations of
the `Memcached` client.

Modelling conventions:
* A Go string is a byte sequence, modelled as `List Nat` (each element a byte).
* The network is an explicit environment: the outcome of `net.Dial` is a
  parameter (`dial`), the peer's bytes arrive as a list of chunks (`input`,
  one chunk per underlying read of the stream socket), and the outcome of
  each `conn.Write` is scripted (`writeScript`, empty script = all succeed).
* `bufio.Reader` is modelled by the buffer `buf` of not-yet-consumed bytes:
  `ReadString` pulls chunks until a newline is buffered; `Read` delivers
  `min n` bytes from the buffer or from a single fresh chunk (a short read
  when fewer bytes are available, exactly as `bufio.Reader.Read` does).
* Every call received by the transport is recorded in a ghost event log so
  that claims of the form "the transport receives no calls" are statable.
-/

namespace MemcachedGo

/-- Byte strings: a Go string or byte slice is a list of byte values. -/
abbrev Bytes := List Nat

/-- The bytes of an ASCII string literal. -/
def str (s : String) : Bytes := s.data.map Char.toNat

/-- The typed failures produced by the client, one constructor per
`fmt.Errorf` site in the source, each carrying the raw data the source
interpolates into the message. `raw` is an underlying transport error that a
client operation returns unwrapped. -/
inductive Err where
  | emptyKey
  | keyTooLong
  | invalidKey
  | connectFailed (msg : Bytes)
  | writeError (msg : Bytes)
  | readError (msg : Bytes)
  | nonexistentCommand (cmd : Bytes)
  | protocolError (line : Bytes)
  | notStored (resp : Bytes)
  | cannotParseHeader (header : Bytes)
  | unexpectedEnd (line : Bytes)
  | deleteFailed (resp : Bytes)
  | raw (msg : Bytes)
  deriving DecidableEq

/-- State of an established `net.Conn`: the chunks the peer will deliver
(one per underlying read), the scripted outcomes of successive writes
(an exhausted script means every further write succeeds), and whether
`conn.Close()` has been called on the handle. -/
structure ConnState where
  input : List Bytes
  writeScript : List (Option Bytes)
  closed : Bool
  deriving DecidableEq

/-- Ghost log of the calls a transport has received. -/
inductive Ev where
  | connect
  | close
  | write (data : Bytes)
  | read (n : Nat)
  deriving DecidableEq

/-- `TransportSocket`: `conn` is the `net.Conn` field (`none` = nil),
`buf` the unconsumed bytes held by the `bufio.Reader`, `log` the ghost call
log. The `network`/`address` fields of the Go struct are omitted: they are
consumed only by `net.Dial`, whose outcome is the explicit `dial` input of
`connect`. -/
structure TransportSocket where
  conn : Option ConnState
  buf : Bytes
  log : List Ev
  deriving DecidableEq

/-- The error `io.EOF` of the underlying stream. -/
def eofErr : Bytes := str "EOF"

/-- The error returned by operations on a closed network connection. -/
def closedConnErr : Bytes := str "use of closed network connection"

/-- Split a byte list at its first newline byte: the shortest nonempty
prefix ending in `\n` together with the remainder, or `none` when no
newline is present. -/
def takeLine : Bytes → Option (Bytes × Bytes)
  | [] => none
  | b :: rest =>
    if b = 10 then some ([10], rest)
    else
      match takeLine rest with
      | some (l, r) => some (b :: l, r)
      | none => none

/-- Result of a buffered line read: either the line (with delimiter) plus
the new buffer and remaining input, or an error plus the state reached. -/
inductive LineRes where
  | line (l : Bytes) (buf : Bytes) (input : List Bytes)
  | fail (e : Bytes) (buf : Bytes) (input : List Bytes)
  deriving DecidableEq

/-- `bufio.Reader.ReadString('\n')`: serve a line from the buffer, pulling
chunks from the connection until a newline is buffered; reading from a
closed connection or past the end of input fails. -/
def readLine (closed : Bool) : List Bytes → Bytes → LineRes
  | input, buf =>
    match takeLine buf with
    | some (l, rest) => .line l rest input
    | none =>
      if closed then .fail closedConnErr buf input
      else
        match input with
        | [] => .fail eofErr buf []
        | c :: cs => readLine closed cs (buf ++ c)

/-- `(t *TransportSocket) connect()`: if `t.conn` is non-nil, return
immediately with no error; otherwise the dial outcome either fails (the
wrapped connection error is returned and `conn` stays nil) or installs the
fresh connection together with a fresh buffered reader. -/
def TransportSocket.connect (t0 : TransportSocket) (dial : Except Bytes ConnState) :
    TransportSocket × Option Err :=
  let t := { t0 with log := t0.log ++ [Ev.connect] }
  match t.conn with
  | some _ => (t, none)
  | none =>
    match dial with
    | .error e => (t, some (.connectFailed e))
    | .ok c => ({ t with conn := some c, buf := [] }, none)

/-- `(t *TransportSocket) Close()`: no-op when `t.conn` is nil; otherwise
closes the underlying connection (a close error is only logged). The field
`t.conn` itself is left as it was — the source never resets it to nil. -/
def TransportSocket.Close (t0 : TransportSocket) : TransportSocket :=
  let t := { t0 with log := t0.log ++ [Ev.close] }
  match t.conn with
  | none => t
  | some c => { t with conn := some { c with closed := true } }

/-- `(t *TransportSocket) Write(data string)`: one `conn.Write`, whose
outcome is the next entry of the write script (success when exhausted);
writing on a closed connection fails. -/
def TransportSocket.Write (t0 : TransportSocket) (data : Bytes) :
    TransportSocket × Option Bytes :=
  let t := { t0 with log := t0.log ++ [Ev.write data] }
  match t.conn with
  | none => (t, some (str "invalid connection"))
  | some c =>
    if c.closed then (t, some closedConnErr)
    else
      match c.writeScript with
      | [] => (t, none)
      | none :: rs => ({ t with conn := some { c with writeScript := rs } }, none)
      | some e :: rs => ({ t with conn := some { c with writeScript := rs } }, some e)

/-- `(t *TransportSocket) Read(bytes []byte)` where `n = len(bytes)` and the
caller's buffer is freshly zeroed: with `n = 0` it reads one line through the
buffered reader; otherwise one buffered read copies at most `n` available
bytes into the buffer and the whole buffer is returned as a string, so a
short read yields fewer stream bytes padded with NUL bytes, with no error
(`bufio.Reader.Read` takes its bytes from at most one underlying read and
the source ignores the returned count). -/
def TransportSocket.Read (t0 : TransportSocket) (n : Nat) :
    TransportSocket × Bytes × Option Bytes :=
  let t := { t0 with log := t0.log ++ [Ev.read n] }
  match t.conn with
  | none => (t, [], some (str "invalid reader"))
  | some c =>
    if n = 0 then
      match readLine c.closed c.input t.buf with
      | .fail e buf1 input1 =>
        ({ t with buf := buf1, conn := some { c with input := input1 } }, [], some e)
      | .line l buf1 input1 =>
        ({ t with buf := buf1, conn := some { c with input := input1 } }, l, none)
    else
      if t.buf = [] then
        if c.closed then (t, [], some closedConnErr)
        else
          match c.input with
          | [] => (t, [], some eofErr)
          | ch :: cs =>
            ({ t with buf := ch.drop n, conn := some { c with input := cs } },
             ch.take n ++ List.replicate (n - ch.length) 0, none)
      else
        ({ t with buf := t.buf.drop n },
         t.buf.take n ++ List.replicate (n - t.buf.length) 0, none)

/-- `ttl.isValid()`: always succeeds. -/
def ttl.isValid (_t : Int) : Option Err := none

/-- The byte class of the regular expression `[\x00-\x1F\x7F\s]` (RE2's
`\s` is `[\t\n\f\r ]`). -/
def keyBadByte (b : Nat) : Bool :=
  decide (b ≤ 0x1F) || b == 0x7F
    || b == 0x09 || b == 0x0A || b == 0x0C || b == 0x0D || b == 0x20

/-- `(k *key) isValid()`: empty key, then byte length over 250, then the
forbidden byte class anywhere in the key; first failing rule wins. -/
def key.isValid (k : Bytes) : Option Err :=
  if k.length = 0 then some .emptyKey
  else if 250 < k.length then some .keyTooLong
  else if k.any keyBadByte then some .invalidKey
  else none

/-- Bytes skipped as blanks by `fmt` scanning between items (newline bytes
are not skipped: a newline in the input must match one in the format). -/
def isBlankByte (b : Nat) : Bool := b == 0x20 || b == 0x09 || b == 0x0B

/-- ASCII bytes on which a `%s` token stops (unicode.IsSpace, ASCII part). -/
def isStopByte (b : Nat) : Bool := b == 0x20 || (decide (0x09 ≤ b) && decide (b ≤ 0x0D))

/-- One `%s` item: skip blanks, then a maximal nonempty run of non-space
bytes. -/
def scanToken (s : Bytes) : Option (Bytes × Bytes) :=
  let s1 := s.dropWhile isBlankByte
  let tok := s1.takeWhile (fun b => !isStopByte b)
  if tok = [] then none else some (tok, s1.drop tok.length)

/-- Decimal value of a digit run. -/
def bytesToNat (ds : Bytes) : Nat := ds.foldl (fun a d => 10 * a + (d - 0x30)) 0

/-- A maximal nonempty run of decimal digits. -/
def scanDigits (s : Bytes) : Option (Nat × Bytes) :=
  let ds := s.takeWhile (fun b => decide (0x30 ≤ b) && decide (b ≤ 0x39))
  if ds = [] then none else some (bytesToNat ds, s.drop ds.length)

/-- One `%d` item: skip blanks, optional sign, then digits. -/
def scanInt (s : Bytes) : Option (Int × Bytes) :=
  let s1 := s.dropWhile isBlankByte
  match s1 with
  | 0x2D :: rest => (scanDigits rest).map (fun p => (-(p.1 : Int), p.2))
  | 0x2B :: rest => (scanDigits rest).map (fun p => ((p.1 : Int), p.2))
  | _ => (scanDigits s1).map (fun p => ((p.1 : Int), p.2))

/-- `fmt.Sscanf(header, "VALUE %s %d %d\r\n", &key, &flags, &bytes)`
succeeding with `n = 3`: the literal `VALUE`, then a token and two
integers; the trailing literal does not affect the item count, and the
source checks only `n != 3`. -/
def parseValueHeader (line : Bytes) : Option (Bytes × Int × Int) :=
  if (str "VALUE").isPrefixOf line then
    match scanToken (line.drop 5) with
    | none => none
    | some (k, r1) =>
      match scanInt r1 with
      | none => none
      | some (fl, r2) =>
        match scanInt r2 with
        | none => none
        | some (nb, _) => some (k, fl, nb)
  else none

/-- The `Memcached` client: a single transport. -/
structure Memcached where
  transport : TransportSocket
  deriving DecidableEq

/-- `NewMemcached`: an unconnected client (network and address are carried
by the dial environment). -/
def NewMemcached : Memcached := ⟨{ conn := none, buf := [], log := [] }⟩

/-- `(m *Memcached) Close()`: closes the transport. -/
def Memcached.Close (m : Memcached) : Memcached := ⟨TransportSocket.Close m.transport⟩

/-- `(m *Memcached) command(cmd string)`: ensure connected, write
`cmd + "\r\n"` (force-closing and wrapping as a write error on failure),
read one line (force-closing and wrapping as a read error on failure),
then classify: the exact `ERROR` line, a `CLIENT_ERROR ` / `SERVER_ERROR `
prefix, or the line handed back unchanged. -/
def Memcached.command (m : Memcached) (dial : Except Bytes ConnState) (cmd : Bytes) :
    Memcached × Bytes × Option Err :=
  let c := TransportSocket.connect m.transport dial
  match c.2 with
  | some e => (⟨c.1⟩, [], some e)
  | none =>
    let w := TransportSocket.Write c.1 (cmd ++ str "\r\n")
    match w.2 with
    | some e => (Memcached.Close ⟨w.1⟩, [], some (.writeError e))
    | none =>
      let r := TransportSocket.Read w.1 0
      match r.2.2 with
      | some e => (Memcached.Close ⟨r.1⟩, [], some (.readError e))
      | none =>
        if r.2.1 = str "ERROR\r\n" then (⟨r.1⟩, [], some (.nonexistentCommand cmd))
        else if (str "CLIENT_ERROR ").isPrefixOf r.2.1 || (str "SERVER_ERROR ").isPrefixOf r.2.1 then
          (⟨r.1⟩, [], some (.protocolError r.2.1))
        else (⟨r.1⟩, r.2.1, none)

/-- `(m *Memcached) Set(key, value, ttl)`: validate, build
`"set <key> 0 <ttl> <len(value)>\r\n<value>"`, send it, succeed only on
the `STORED` line. -/
def Memcached.Set (m : Memcached) (dial : Except Bytes ConnState)
    (k : Bytes) (value : Bytes) (t : Int) : Memcached × Option Err :=
  match key.isValid k with
  | some e => (m, some e)
  | none =>
    match ttl.isValid t with
    | some e => (m, some e)
    | none =>
      let cmd := str "set " ++ k ++ str " 0 " ++ str (toString t) ++ str " "
        ++ str (toString value.length) ++ str "\r\n" ++ value
      let r := Memcached.command m dial cmd
      match r.2.2 with
      | some e => (r.1, some e)
      | none =>
        if r.2.1 = str "STORED\r\n" then (r.1, none)
        else (r.1, some (.notStored r.2.1))

/-- `(m *Memcached) Get(key)`: validate, send `"get <key>"`, return empty
on the `END` line, else parse the `VALUE` header, read the declared number
of payload bytes (`len(dataBuf) = 0` selects the line-reading mode of
`Read`, and the line-mode result is discarded, leaving the empty buffer),
read `len("\r\nEND\r\n")` more bytes and require them to equal that
trailing sequence, then return the payload buffer. A negative declared
length is modelled as 0 (the source would panic in `make`). -/
def Memcached.Get (m : Memcached) (dial : Except Bytes ConnState) (k : Bytes) :
    Memcached × Bytes × Option Err :=
  match key.isValid k with
  | some e => (m, [], some e)
  | none =>
    let eof := str "END\r\n"
    let h := Memcached.command m dial (str "get " ++ k)
    match h.2.2 with
    | some e => (h.1, [], some e)
    | none =>
      if h.2.1 = eof then (h.1, [], none)
      else
        match parseValueHeader h.2.1 with
        | none => (h.1, [], some (.cannotParseHeader h.2.1))
        | some (_, _, nb) =>
          let d := TransportSocket.Read h.1.transport nb.toNat
          match d.2.2 with
          | some e => (⟨d.1⟩, [], some (.raw e))
          | none =>
            let dataBuf := if nb.toNat = 0 then [] else d.2.1
            let rnEof := str "\r\n" ++ eof
            let e2 := TransportSocket.Read d.1 rnEof.length
            match e2.2.2 with
            | some e => (⟨e2.1⟩, [], some (.raw e))
            | none =>
              if e2.2.1 ≠ rnEof then (⟨e2.1⟩, [], some (.unexpectedEnd e2.2.1))
              else (⟨e2.1⟩, dataBuf, none)

/-- `(m *Memcached) Delete(key)`: validate, send `"delete <key>"`, succeed
only on the `DELETED` line. -/
def Memcached.Delete (m : Memcached) (dial : Except Bytes ConnState) (k : Bytes) :
    Memcached × Option Err :=
  match key.isValid k with
  | some e => (m, some e)
  | none =>
    let r := Memcached.command m dial (str "delete " ++ k)
    match r.2.2 with
    | some e => (r.1, some e)
    | none =>
      if r.2.1 = str "DELETED\r\n" then (r.1, none)
      else (r.1, some (.deleteFailed r.2.1))

/-- Projection of a ghost event to the bytes of a write call. -/
def evWrite : Ev → Option Bytes
  | .write d => some d
  | _ => none

/-- The byte strings of all write calls a transport has received. -/
def writesOf (t : TransportSocket) : List Bytes := t.log.filterMap evWrite

/-- A freshly dialled connection delivering the given chunks, all writes
succeeding. -/
def openConn (input : List Bytes) : ConnState :=
  { input := input, writeScript := [], closed := false }

/-- The transport of a freshly constructed client. -/
def freshSock : TransportSocket := { conn := none, buf := [], log := [] }

/-- A freshly constructed client. -/
def freshClient : Memcached := ⟨freshSock⟩

/-- The ASCII whitespace bytes (tab, lf, vt, ff, cr, space). -/
def asciiWhitespace : Bytes := [0x09, 0x0A, 0x0B, 0x0C, 0x0D, 0x20]

/-- C1 fixture: an established, not yet closed connection. -/
def c1conn : ConnState := openConn [str "END\r\n"]

/-- C1 fixture: a transport holding `c1conn`. -/
def c1sock : TransportSocket := { conn := some c1conn, buf := [], log := [] }

/-- C1 fixture: the fresh connection a new dial would produce. -/
def c1freshConn : ConnState := openConn [str "STORED\r\n"]

/-- C2 fixture: a connected transport whose stream delivers a single
one-byte chunk. -/
def c2sock : TransportSocket :=
  { conn := some (openConn [str "a"]), buf := [], log := [] }

/-- C3 fixture: a payload containing embedded CRLF and a literal
`END\r\n`. -/
def c3val : Bytes := str "Hello World!\nEND\r\nBut no!\n\n"

/-- C3 fixture: server responses for storing and then fetching `c3val`
under key `foo`. -/
def c3dial : Except Bytes ConnState :=
  .ok (openConn [str "STORED\r\n", str "VALUE foo 0 27\r\n" ++ c3val ++ str "\r\nEND\r\n"])

/-- C3 fixture: server responses for storing and then fetching the empty
value under key `foo`. -/
def c3dialEmpty : Except Bytes ConnState :=
  .ok (openConn [str "STORED\r\n", str "VALUE foo 0 0\r\n\r\nEND\r\n"])

/-- C7 fixture: a connected transport with the given write script and
input chunks. -/
def c7sockOpen (ws : List (Option Bytes)) (input : List Bytes) : TransportSocket :=
  { conn := some { input := input, writeScript := ws, closed := false }, buf := [], log := [] }

/-- C8 fixture: the server answers with the exact `ERROR` line. -/
def c8dialErr : Except Bytes ConnState := .ok (openConn [str "ERROR\r\n"])

/-- C8 fixture: the server answers with a `SERVER_ERROR` line. -/
def c8dialServerErr : Except Bytes ConnState :=
  .ok (openConn [str "SERVER_ERROR out of memory\r\n"])

/-- C8 fixture: the server answers with a plain status line. -/
def c8dialStored : Except Bytes ConnState := .ok (openConn [str "STORED\r\n"])

/-- C9 fixture: the server answers with the bare terminator line. -/
def c9dial : Except Bytes ConnState := .ok (openConn [str "END\r\n"])

/-- C10 fixture: response for a key that is not present. -/
def c10dialEnd : Except Bytes ConnState := .ok (openConn [str "END\r\n"])

/-- C10 fixture: response for a key holding a zero-byte value. -/
def c10dialZero : Except Bytes ConnState :=
  .ok (openConn [str "VALUE foo 0 0\r\n\r\nEND\r\n"])

/-! ## Helper lemmas about the ghost call log -/

theorem connect_fst_log (t : TransportSocket) (dial : Except Bytes ConnState) :
    (TransportSocket.connect t dial).1.log = t.log ++ [Ev.connect] := by
  rcases h : t.conn with _ | c <;> rcases hd : dial with e | c2 <;>
    simp [TransportSocket.connect, h, hd]

theorem Close_log (t : TransportSocket) :
    (TransportSocket.Close t).log = t.log ++ [Ev.close] := by
  rcases h : t.conn with _ | c <;> simp [TransportSocket.Close, h]

theorem Write_fst_log (t : TransportSocket) (d : Bytes) :
    (TransportSocket.Write t d).1.log = t.log ++ [Ev.write d] := by
  rcases h : t.conn with _ | c
  · simp [TransportSocket.Write, h]
  · simp only [TransportSocket.Write, h]
    split <;> (try split) <;> simp

theorem Read_fst_log (t : TransportSocket) (n : Nat) :
    (TransportSocket.Read t n).1.log = t.log ++ [Ev.read n] := by
  rcases h : t.conn with _ | c
  · simp [TransportSocket.Read, h]
  · simp only [TransportSocket.Read, h]
    split <;> (try split) <;> (try split) <;> (try split) <;> simp

theorem writesOf_connect (t : TransportSocket) (dial : Except Bytes ConnState) :
    writesOf (TransportSocket.connect t dial).1 = writesOf t := by
  simp [writesOf, connect_fst_log, evWrite]

theorem writesOf_Close (t : TransportSocket) :
    writesOf (TransportSocket.Close t) = writesOf t := by
  simp [writesOf, Close_log, evWrite]

theorem writesOf_Write (t : TransportSocket) (d : Bytes) :
    writesOf (TransportSocket.Write t d).1 = writesOf t ++ [d] := by
  simp [writesOf, Write_fst_log, evWrite]

theorem writesOf_Read (t : TransportSocket) (n : Nat) :
    writesOf (TransportSocket.Read t n).1 = writesOf t := by
  simp [writesOf, Read_fst_log, evWrite]

/-- When the connect step succeeds, `command` performs exactly one write,
of the command line followed by the terminator, whatever the response. -/
theorem command_writes (m : Memcached) (dial : Except Bytes ConnState) (cmd : Bytes)
    (h : (TransportSocket.connect m.transport dial).2 = none) :
    writesOf (Memcached.command m dial cmd).1.transport
      = writesOf m.transport ++ [cmd ++ str "\r\n"] := by
  simp only [Memcached.command, h]
  rcases hw : (TransportSocket.Write (TransportSocket.connect m.transport dial).1
      (cmd ++ str "\r\n")).2 with _ | e
  · rcases hr : (TransportSocket.Read (TransportSocket.Write
        (TransportSocket.connect m.transport dial).1 (cmd ++ str "\r\n")).1 0).2.2 with _ | e2
    · split <;> (try split) <;> (try split) <;> (try split) <;>
        simp [Memcached.Close, writesOf_Close, writesOf_Read, writesOf_Write, writesOf_connect]
    · simp [Memcached.Close, writesOf_Close, writesOf_Read, writesOf_Write, writesOf_connect]
  · simp [Memcached.Close, writesOf_Close, writesOf_Write, writesOf_connect]

/-! ## Claim theorems -/

/-- C1: after `Close`, the next command's connect step does NOT establish a
fresh connection: `Close` never resets `conn` to nil, so `connect` returns
immediately, the closed handle is kept (the freshly dialable connection is
ignored), and the next command fails writing to the closed socket instead
of reconnecting. -/
theorem c1_close_then_connect_reuses_closed_handle :
    (TransportSocket.connect (TransportSocket.Close c1sock) (.ok c1freshConn)).2 = none
  ∧ (TransportSocket.connect (TransportSocket.Close c1sock) (.ok c1freshConn)).1.conn
      = some { c1conn with closed := true }
  ∧ (Memcached.Set ⟨TransportSocket.Close c1sock⟩ (.ok c1freshConn) (str "foo") (str "a") 0).2
      = some (.writeError closedConnErr) := by decide

/-- C2: the exact-length read mode is not exact: requesting 2 bytes when
the stream delivers a single one-byte chunk before ending succeeds with no
error, returning the one stream byte padded with a NUL byte, and the
stream is left exhausted — a premature stream end does not fail. -/
theorem c2_exact_read_short_delivery :
    (TransportSocket.Read c2sock 2).2 = (str "a" ++ [0], none)
  ∧ (TransportSocket.Read c2sock 2).1.conn = some (openConn [])
  ∧ (TransportSocket.Read c2sock 2).1.buf = [] := by decide

/-- C3: the store-then-fetch round trip returns the original bytes for a
value with embedded CRLF and a literal `END\r\n` (length framing), but
fails for the empty value: the zero-length payload read takes the
line-reading mode, consumes the trailing CRLF, and the trailing-sequence
check then fails with an unexpected-end error. -/
theorem c3_roundtrip_fails_for_empty_value :
    ((Memcached.Set freshClient c3dial (str "foo") c3val 10).2 = none
      ∧ (Memcached.Get (Memcached.Set freshClient c3dial (str "foo") c3val 10).1
          c3dial (str "foo")).2 = (c3val, none))
  ∧ ((Memcached.Set freshClient c3dialEmpty (str "foo") [] 10).2 = none
      ∧ (Memcached.Get (Memcached.Set freshClient c3dialEmpty (str "foo") [] 10).1
          c3dialEmpty (str "foo")).2
        = ([], some (.unexpectedEnd (str "END\r\n" ++ [0, 0])))) := by decide

/-- C10: fetching a missing key returns the empty string with no error,
but fetching a stored zero-byte value does not: the declared length 0
turns the payload read into a line read, so `Get` fails with an
unexpected-end error — the two outcomes are distinguishable. -/
theorem c10_empty_value_is_distinguishable :
    (Memcached.Get freshClient c10dialEnd (str "foo")).2 = ([], none)
  ∧ (Memcached.Get freshClient c10dialZero (str "foo")).2
      = ([], some (.unexpectedEnd (str "END\r\n" ++ [0, 0]))) := by decide

/-- C6: on an invalid key, `Set`, `Get` and `Delete` return exactly the
validation error and the client — including the transport's ghost call
log — is unchanged: no connect, write, read or close reaches the
transport. -/
theorem c6_validation_before_io (m : Memcached) (dial : Except Bytes ConnState)
    (k v : Bytes) (t : Int) (e : Err) (h : key.isValid k = some e) :
    Memcached.Set m dial k v t = (m, some e)
  ∧ Memcached.Get m dial k = (m, [], some e)
  ∧ Memcached.Delete m dial k = (m, some e) := by
  refine ⟨?_, ?_, ?_⟩ <;> simp [Memcached.Set, Memcached.Get, Memcached.Delete, h]

theorem c6_validation_before_io_witness :
    Memcached.Set freshClient (.ok (openConn [])) [] (str "x") 10 = (freshClient, some .emptyKey)
  ∧ Memcached.Get freshClient (.ok (openConn [])) [] = (freshClient, [], some .emptyKey)
  ∧ Memcached.Delete freshClient (.ok (openConn [])) [] = (freshClient, some .emptyKey) :=
  c6_validation_before_io freshClient (.ok (openConn [])) [] (str "x") 10 .emptyKey (by decide)

/-- C9: for a valid key, when the command step yields the terminator line
`END\r\n` as the first response line with no error, `Get` returns the
empty string and no error. -/
theorem c9_get_end_is_empty_no_error (m m1 : Memcached) (dial : Except Bytes ConnState)
    (k : Bytes) (hk : key.isValid k = none)
    (hcmd : Memcached.command m dial (str "get " ++ k) = (m1, str "END\r\n", none)) :
    Memcached.Get m dial k = (m1, [], none) := by
  simp [Memcached.Get, hk, hcmd]

theorem c9_get_end_is_empty_no_error_witness :
    Memcached.Get freshClient c9dial (str "foo")
      = ((Memcached.command freshClient c9dial (str "get foo")).1, [], none) :=
  c9_get_end_is_empty_no_error freshClient
    (Memcached.command freshClient c9dial (str "get foo")).1 c9dial (str "foo")
    (by decide) (by decide)

/-- The byte class of the key regular expression is exactly: ASCII control
bytes, DEL, or ASCII whitespace. -/
theorem keyBadByte_iff (b : Nat) :
    keyBadByte b = true ↔ (b ≤ 0x1F ∨ b = 0x7F ∨ b ∈ asciiWhitespace) := by
  simp [keyBadByte, asciiWhitespace]
  omega

/-- C4: `isValid` applies its rules in order with the first failing rule
winning: the empty key fails as empty, then a byte length over 250 fails
as too long, then any ASCII control byte (0x00-0x1F or 0x7F) or
whitespace byte anywhere in the key fails as invalid, and every other
key is accepted. -/
theorem c4_key_validation (k : Bytes) :
    (key.isValid k = some .emptyKey ↔ k = [])
  ∧ (key.isValid k = some .keyTooLong ↔ k ≠ [] ∧ 250 < k.length)
  ∧ (key.isValid k = some .invalidKey ↔
      k ≠ [] ∧ k.length ≤ 250 ∧ ∃ b ∈ k, (b ≤ 0x1F ∨ b = 0x7F ∨ b ∈ asciiWhitespace))
  ∧ (key.isValid k = none ↔
      k ≠ [] ∧ k.length ≤ 250 ∧ ∀ b ∈ k, ¬(b ≤ 0x1F ∨ b = 0x7F ∨ b ∈ asciiWhitespace)) := by
  by_cases h0 : k = []
  · subst h0; simp [key.isValid]
  · have h0l : ¬ k.length = 0 := by simpa [List.length_eq_zero] using h0
    by_cases h1 : 250 < k.length
    · have hval : key.isValid k = some .keyTooLong := by simp [key.isValid, h0l, h1]
      rw [hval]
      refine ⟨by simp [h0], by simp [h0, h1], ?_, ?_⟩
      · refine iff_of_false (by simp) ?_
        rintro ⟨-, hle, -⟩
        omega
      · refine iff_of_false (by simp) ?_
        rintro ⟨-, hle, -⟩
        omega
    · have hle : k.length ≤ 250 := Nat.le_of_not_lt h1
      by_cases h2 : k.any keyBadByte = true
      · have h2e : ∃ b ∈ k, (b ≤ 0x1F ∨ b = 0x7F ∨ b ∈ asciiWhitespace) := by
          rw [List.any_eq_true] at h2
          obtain ⟨b, hb, hbad⟩ := h2
          exact ⟨b, hb, (keyBadByte_iff b).mp hbad⟩
        have hval : key.isValid k = some .invalidKey := by simp [key.isValid, h0l, h1, h2]
        rw [hval]
        refine ⟨by simp [h0], ?_, ?_, ?_⟩
        · refine iff_of_false (by simp) ?_
          rintro ⟨-, hlong⟩
          exact h1 hlong
        · exact iff_of_true rfl ⟨h0, hle, h2e⟩
        · refine iff_of_false (by simp) ?_
          rintro ⟨-, -, hall⟩
          obtain ⟨b, hb, hbad⟩ := h2e
          exact hall b hb hbad
      · have h2a : ∀ b ∈ k, ¬(b ≤ 0x1F ∨ b = 0x7F ∨ b ∈ asciiWhitespace) := by
          intro b hb hbad
          exact h2 (List.any_eq_true.mpr ⟨b, hb, (keyBadByte_iff b).mpr hbad⟩)
        have hval : key.isValid k = none := by simp [key.isValid, h0l, h1, h2]
        rw [hval]
        refine ⟨by simp [h0], ?_, ?_, ?_⟩
        · refine iff_of_false (by simp) ?_
          rintro ⟨-, hlong⟩
          exact h1 hlong
        · refine iff_of_false (by simp) ?_
          rintro ⟨-, -, b, hb, hbad⟩
          exact h2a b hb hbad
        · exact iff_of_true rfl ⟨h0, hle, h2a⟩

/-- C5: for a valid key, `Set` makes the transport write exactly one byte
string: `"set " + key + " 0 " + ttl + " " + byte-length(value) + CRLF +
value + CRLF`, whatever response the server then returns. -/
theorem c5_set_wire_format (k v : Bytes) (t : Int) (input : List Bytes)
    (h : key.isValid k = none) :
    writesOf (Memcached.Set freshClient (.ok (openConn input)) k v t).1.transport
      = [str "set " ++ k ++ str " 0 " ++ str (toString t) ++ str " "
          ++ str (toString v.length) ++ str "\r\n" ++ v ++ str "\r\n"] := by
  have hc : (TransportSocket.connect freshClient.transport (.ok (openConn input))).2 = none := rfl
  have hw := command_writes freshClient (.ok (openConn input))
    (str "set " ++ k ++ str " 0 " ++ str (toString t) ++ str " "
      ++ str (toString v.length) ++ str "\r\n" ++ v) hc
  have hw0 : writesOf freshClient.transport = [] := rfl
  rw [hw0, List.nil_append] at hw
  simp only [Memcached.Set, h, ttl.isValid]
  rcases hr : (Memcached.command freshClient (.ok (openConn input))
      (str "set " ++ k ++ str " 0 " ++ str (toString t) ++ str " "
        ++ str (toString v.length) ++ str "\r\n" ++ v)).2.2 with _ | e
  · simp only [hr]
    split <;> rw [hw]
  · simp only [hr]
    rw [hw]

theorem c5_set_wire_format_witness :
    writesOf (Memcached.Set freshClient (.ok (openConn [str "STORED\r\n"]))
        (str "foo") (str "a\r\nb") 10).1.transport
      = [str "set foo 0 10 4\r\na\r\nb\r\n"] :=
  c5_set_wire_format (str "foo") (str "a\r\nb") 10 [str "STORED\r\n"] (by decide)

/-- C7: in `command`, a failed connect step returns that connection error
with the transport receiving nothing but the connect call; a failed write
of the command line force-closes the transport and returns a write error;
a failed read of the first response line force-closes the transport and
returns a read error. -/
theorem c7_command_io_error_paths (m : Memcached) (dial : Except Bytes ConnState) (cmd : Bytes) :
    (∀ e, (TransportSocket.connect m.transport dial).2 = some e →
      Memcached.command m dial cmd = (⟨(TransportSocket.connect m.transport dial).1⟩, [], some e)
      ∧ (TransportSocket.connect m.transport dial).1.log = m.transport.log ++ [Ev.connect])
  ∧ (∀ e, (TransportSocket.connect m.transport dial).2 = none →
      (TransportSocket.Write (TransportSocket.connect m.transport dial).1 (cmd ++ str "\r\n")).2
        = some e →
      Memcached.command m dial cmd
        = (Memcached.Close ⟨(TransportSocket.Write (TransportSocket.connect m.transport dial).1
             (cmd ++ str "\r\n")).1⟩, [], some (.writeError e)))
  ∧ (∀ e, (TransportSocket.connect m.transport dial).2 = none →
      (TransportSocket.Write (TransportSocket.connect m.transport dial).1 (cmd ++ str "\r\n")).2
        = none →
      (TransportSocket.Read (TransportSocket.Write (TransportSocket.connect m.transport dial).1
          (cmd ++ str "\r\n")).1 0).2.2 = some e →
      Memcached.command m dial cmd
        = (Memcached.Close ⟨(TransportSocket.Read
             (TransportSocket.Write (TransportSocket.connect m.transport dial).1
               (cmd ++ str "\r\n")).1 0).1⟩, [], some (.readError e))) := by
  refine ⟨fun e h1 => ⟨?_, connect_fst_log m.transport dial⟩,
          fun e h1 h2 => ?_, fun e h1 h2 h3 => ?_⟩
  · simp [Memcached.command, h1]
  · simp [Memcached.command, h1, h2]
  · simp [Memcached.command, h1, h2, h3]

theorem c7_command_io_error_paths_witness :
    Memcached.command freshClient (.error (str "refused")) (str "get a")
      = (⟨(TransportSocket.connect freshClient.transport (.error (str "refused"))).1⟩, [],
         some (.connectFailed (str "refused")))
  ∧ Memcached.command ⟨c7sockOpen [some (str "boom")] []⟩ (.ok (openConn [])) (str "get a")
      = (Memcached.Close ⟨(TransportSocket.Write
          (TransportSocket.connect (c7sockOpen [some (str "boom")] []) (.ok (openConn []))).1
          (str "get a" ++ str "\r\n")).1⟩, [], some (.writeError (str "boom")))
  ∧ Memcached.command ⟨c7sockOpen [] []⟩ (.ok (openConn [])) (str "get a")
      = (Memcached.Close ⟨(TransportSocket.Read (TransportSocket.Write
          (TransportSocket.connect (c7sockOpen [] []) (.ok (openConn []))).1
          (str "get a" ++ str "\r\n")).1 0).1⟩, [], some (.readError eofErr)) :=
  ⟨((c7_command_io_error_paths freshClient (.error (str "refused")) (str "get a")).1
      (.connectFailed (str "refused")) (by decide)).1,
   (c7_command_io_error_paths ⟨c7sockOpen [some (str "boom")] []⟩ (.ok (openConn []))
      (str "get a")).2.1 (str "boom") (by decide) (by decide),
   (c7_command_io_error_paths ⟨c7sockOpen [] []⟩ (.ok (openConn []))
      (str "get a")).2.2 eofErr (by decide) (by decide) (by decide)⟩

/-- C8: once the first response line is read successfully, `command`
classifies it: the exact `ERROR` line yields the unknown-command error, a
line starting with `CLIENT_ERROR ` or `SERVER_ERROR ` yields a protocol
error carrying the raw line, and every other line is returned unchanged
with no error. -/
theorem c8_response_classification (m : Memcached) (dial : Except Bytes ConnState)
    (cmd line : Bytes)
    (hc : (TransportSocket.connect m.transport dial).2 = none)
    (hw : (TransportSocket.Write (TransportSocket.connect m.transport dial).1
        (cmd ++ str "\r\n")).2 = none)
    (hr : (TransportSocket.Read (TransportSocket.Write (TransportSocket.connect m.transport dial).1
        (cmd ++ str "\r\n")).1 0).2 = (line, none)) :
    (line = str "ERROR\r\n" →
      Memcached.command m dial cmd
        = (⟨(TransportSocket.Read (TransportSocket.Write
            (TransportSocket.connect m.transport dial).1 (cmd ++ str "\r\n")).1 0).1⟩, [],
           some (.nonexistentCommand cmd)))
  ∧ (((str "CLIENT_ERROR ").isPrefixOf line || (str "SERVER_ERROR ").isPrefixOf line) = true →
      Memcached.command m dial cmd
        = (⟨(TransportSocket.Read (TransportSocket.Write
            (TransportSocket.connect m.transport dial).1 (cmd ++ str "\r\n")).1 0).1⟩, [],
           some (.protocolError line)))
  ∧ (line ≠ str "ERROR\r\n" →
     ((str "CLIENT_ERROR ").isPrefixOf line || (str "SERVER_ERROR ").isPrefixOf line) = false →
      Memcached.command m dial cmd
        = (⟨(TransportSocket.Read (TransportSocket.Write
            (TransportSocket.connect m.transport dial).1 (cmd ++ str "\r\n")).1 0).1⟩,
           line, none)) := by
  have h1 : (TransportSocket.Read (TransportSocket.Write
      (TransportSocket.connect m.transport dial).1 (cmd ++ str "\r\n")).1 0).2.1 = line := by
    rw [hr]
  have h2 : (TransportSocket.Read (TransportSocket.Write
      (TransportSocket.connect m.transport dial).1 (cmd ++ str "\r\n")).1 0).2.2 = none := by
    rw [hr]
  refine ⟨fun hE => ?_, fun hp => ?_, fun hE hp => ?_⟩
  · simp [Memcached.command, hc, hw, h1, h2, hE]
  · have hE : ¬ line = str "ERROR\r\n" := by
      rintro rfl
      revert hp
      decide
    simp [Memcached.command, hc, hw, h1, h2, hE, hp]
  · simp [Memcached.command, hc, hw, h1, h2, hE, hp]

theorem c8_response_classification_witness :
    Memcached.command freshClient c8dialErr (str "set a")
      = (⟨(TransportSocket.Read (TransportSocket.Write
          (TransportSocket.connect freshClient.transport c8dialErr).1
          (str "set a" ++ str "\r\n")).1 0).1⟩, [], some (.nonexistentCommand (str "set a")))
  ∧ Memcached.command freshClient c8dialServerErr (str "get a")
      = (⟨(TransportSocket.Read (TransportSocket.Write
          (TransportSocket.connect freshClient.transport c8dialServerErr).1
          (str "get a" ++ str "\r\n")).1 0).1⟩, [],
         some (.protocolError (str "SERVER_ERROR out of memory\r\n")))
  ∧ Memcached.command freshClient c8dialStored (str "set a")
      = (⟨(TransportSocket.Read (TransportSocket.Write
          (TransportSocket.connect freshClient.transport c8dialStored).1
          (str "set a" ++ str "\r\n")).1 0).1⟩, str "STORED\r\n", none) :=
  ⟨(c8_response_classification freshClient c8dialErr (str "set a") (str "ERROR\r\n")
      (by decide) (by decide) (by decide)).1 rfl,
   (c8_response_classification freshClient c8dialServerErr (str "get a")
      (str "SERVER_ERROR out of memory\r\n") (by decide) (by decide) (by decide)).2.1 (by decide),
   (c8_response_classification freshClient c8dialStored (str "set a") (str "STORED\r\n")
      (by decide) (by decide) (by decide)).2.2 (by decide) (by decide)⟩

end MemcachedGo
